import Mathlib

/-
Verification of the TidyBot core subsystems (offline sync manager, indexing
service, search engine, natural-language query parser) against their
natural-language specification.  Each Lean definition below is a shallow
embedding of a function in the repository; the file/line references in the
doc comments point into the Python source.  Machine-level details that live
in external libraries (SQLite, Whoosh, spaCy, sentence-transformers) are
modelled only to the extent the repository code exercises them, and every
such modelling choice is recorded in the corresponding doc comment.
Datetimes are modelled as integer timestamps (seconds); `timedelta(hours=24)`
is 86400 of these units.
-/

namespace TidyBot

/-! ## Offline manager data model
    From `tidybot/ai_service/services/offline_manager.py`. -/

/-- `SyncStatus` enum (offline_manager.py lines 19-24). -/
inductive SyncStatus where
  | pending
  | syncing
  | synced
  | conflict
  | failed
deriving DecidableEq, Repr

/-- The `.value` string of a `SyncStatus` member. -/
def SyncStatus.value : SyncStatus → String
  | .pending => "pending"
  | .syncing => "syncing"
  | .synced => "synced"
  | .conflict => "conflict"
  | .failed => "failed"

/-- `OperationType` enum (offline_manager.py lines 27-32). -/
inductive OperationType where
  | create
  | update
  | delete
  | rename
  | move
deriving DecidableEq, Repr

/-- The `.value` string of an `OperationType` member. -/
def OperationType.value : OperationType → String
  | .create => "create"
  | .update => "update"
  | .delete => "delete"
  | .rename => "rename"
  | .move => "move"

/-- Inverse of `OperationType.value`, modelling the `OperationType(row[1])`
conversion in `_load_pending_operations`.  Stored rows only ever hold values
produced by `OperationType.value`, on which this is a true inverse. -/
def OperationType.ofValue : String → OperationType
  | "create" => .create
  | "update" => .update
  | "delete" => .delete
  | "rename" => .rename
  | "move" => .move
  | _ => .create

/-- `OfflineOperation` dataclass (offline_manager.py lines 35-56).  The JSON
`data` payload is kept as an opaque string. -/
structure OfflineOperation where
  id : String
  operation_type : OperationType
  file_path : String
  timestamp : Int
  data : String
  status : SyncStatus
  error : Option String := none
  retry_count : Nat := 0
deriving DecidableEq, Repr

/-- Outcome of `_sync_operation` for one operation (offline_manager.py lines
549-556): the dict's `status` field is `"success"`, `"conflict"`, or any
other value (treated as a failure by `sync_now`).  The server interaction is
a stub in the source, so the outcome is a parameter of the model. -/
inductive SyncOutcome where
  | success
  | conflict
  | failure
deriving DecidableEq, Repr

/-- Aggregate result of `sync_now` (offline_manager.py lines 452-486).  The
counters `synced`/`failed`/`conflicts` are the ones the source returns.  In
addition the model records the `OfflineOperation` objects that left the
queue, grouped by how they left it: these objects exist in the Python heap
and their final field values (in particular `status` and `retry_count`) are
observable, so recording them lets us state claims about them.
`dropped_ops` are the operations removed after `retry_count` reached 3. -/
structure SyncReport where
  synced : Nat
  failed : Nat
  conflicts : Nat
  synced_ops : List OfflineOperation
  conflict_ops : List OfflineOperation
  dropped_ops : List OfflineOperation
deriving DecidableEq, Repr

/-- Termination measure for the `sync_now` drain loop: an operation can be
popped at most `1 + (3 - retry_count)` more times. -/
def op_weight (op : OfflineOperation) : Nat :=
  1 + (3 - op.retry_count)

/-- `OfflineManager.sync_now` (offline_manager.py lines 452-486), assuming
`is_online` (the claims under study are about the online path).  The source
drains `self.sync_queue` (a FIFO deque): it pops the leftmost operation,
obtains the `_sync_operation` outcome, and
  - on success increments `synced` (the operation is simply dropped);
  - on conflict increments `conflicts` and calls `_handle_conflict`, which
    under the default `server_wins` strategy only logs (lines 564-566) —
    the model fixes that default strategy;
  - otherwise increments `failed`, increments the operation's
    `retry_count`, and re-appends the operation to the queue only while
    `retry_count < 3`.
Nowhere in this loop is `operation.status` assigned, and the loop performs
no SQL: the persisted `offline_queue` rows are untouched. -/
def sync_now (outcome : OfflineOperation → SyncOutcome) :
    List OfflineOperation → SyncReport
  | [] =>
    { synced := 0, failed := 0, conflicts := 0,
      synced_ops := [], conflict_ops := [], dropped_ops := [] }
  | op :: rest =>
    match outcome op with
    | .success =>
      let r := sync_now outcome rest
      { r with synced := r.synced + 1, synced_ops := op :: r.synced_ops }
    | .conflict =>
      let r := sync_now outcome rest
      { r with conflicts := r.conflicts + 1,
               conflict_ops := op :: r.conflict_ops }
    | .failure =>
      if h : op.retry_count + 1 < 3 then
        let r := sync_now outcome
          (rest ++ [{ op with retry_count := op.retry_count + 1 }])
        { r with failed := r.failed + 1 }
      else
        let r := sync_now outcome rest
        { r with failed := r.failed + 1,
                 dropped_ops := { op with retry_count := op.retry_count + 1 }
                   :: r.dropped_ops }
termination_by queue => (queue.map op_weight).sum
decreasing_by
  all_goals simp only [List.map_append, List.sum_append, List.map_cons,
    List.sum_cons, List.map_nil, List.sum_nil, op_weight]
  all_goals omega

/-- A sync backend on which every attempt fails with a non-conflict error. -/
def always_fails : OfflineOperation → SyncOutcome := fun _ => .failure

/-- A sync backend on which every attempt succeeds. -/
def always_succeeds : OfflineOperation → SyncOutcome := fun _ => .success

/-! ## Offline queue persistence
    `queue_operation` and `_load_pending_operations`
    (offline_manager.py lines 406-450 and 498-530). -/

/-- A row of the SQLite `offline_queue` table (offline_manager.py lines
107-118).  `retry_count` has SQL default 0 and `error` default NULL. -/
structure QueueRow where
  id : String
  operation_type : String
  file_path : String
  timestamp : Int
  data : String
  status : String
  error : Option String := none
  retry_count : Nat := 0
deriving DecidableEq, Repr

/-- `OfflineManager.queue_operation` (offline_manager.py lines 406-450).
The source builds an `OfflineOperation` with `status = SyncStatus.PENDING`,
INSERTs a row `(id, operation_type, file_path, timestamp, data, status)`
into `offline_queue` (so `error`/`retry_count` take their SQL defaults) and
appends the operation to the in-memory `sync_queue`.  The generated id and
the `datetime.now()` timestamp are parameters of the model. -/
def queue_operation (db : List QueueRow) (queue : List OfflineOperation)
    (operation_type : OperationType) (file_path : String) (data : String)
    (id : String) (now : Int) :
    List QueueRow × List OfflineOperation :=
  let operation : OfflineOperation :=
    { id := id, operation_type := operation_type, file_path := file_path,
      timestamp := now, data := data, status := .pending }
  let row : QueueRow :=
    { id := operation.id, operation_type := operation.operation_type.value,
      file_path := operation.file_path, timestamp := operation.timestamp,
      data := operation.data, status := operation.status.value }
  (db ++ [row], queue ++ [operation])

/-- Conversion of an `offline_queue` row back to an `OfflineOperation`,
as done per-row in `_load_pending_operations` (offline_manager.py lines
514-525).  `SyncStatus(row[5])` is modelled like `OperationType.ofValue`. -/
def row_to_operation (r : QueueRow) : OfflineOperation :=
  { id := r.id, operation_type := OperationType.ofValue r.operation_type,
    file_path := r.file_path, timestamp := r.timestamp, data := r.data,
    status := match r.status with
      | "pending" => .pending
      | "syncing" => .syncing
      | "synced" => .synced
      | "conflict" => .conflict
      | _ => .failed,
    error := r.error, retry_count := r.retry_count }

/-- Stable insertion used to model `ORDER BY timestamp ASC` over the stored
rows (equal timestamps keep their relative order). -/
def insert_by_timestamp (r : QueueRow) : List QueueRow → List QueueRow
  | [] => [r]
  | s :: rest =>
    if s.timestamp ≤ r.timestamp then s :: insert_by_timestamp r rest
    else r :: s :: rest

/-- Sort rows ascending by `timestamp` (model of the SQL `ORDER BY`). -/
def sort_by_timestamp (rows : List QueueRow) : List QueueRow :=
  rows.foldl (fun acc r => insert_by_timestamp r acc) []

/-- `OfflineManager._load_pending_operations` (offline_manager.py lines
498-530): SELECTs the rows `WHERE status IN ('pending', 'failed') ORDER BY
timestamp ASC` and appends each, converted back to an `OfflineOperation`,
to the (restarted, hence empty) in-memory sync queue. -/
def load_pending_operations (db : List QueueRow) : List OfflineOperation :=
  (sort_by_timestamp
    (db.filter (fun r => r.status == "pending" || r.status == "failed"))).map
    row_to_operation

/-! ## Search-result cache
    `LocalCache.cache_search_results` / `get_cached_search`
    (offline_manager.py lines 249-321). -/

/-- A row of the SQLite `search_cache` table (offline_manager.py lines
96-105).  The table is keyed by `query_hash = sha256(query)`; since the
code only ever looks a row up by the hash of the query text, the model keys
rows by the query text itself (hashing is injective for the purposes of the
code).  `results` is the JSON-encoded result list, kept opaque. -/
structure SearchCacheRow where
  query_text : String
  results : String
  cached_at : Int
  accessed_at : Int
  access_count : Nat
deriving DecidableEq, Repr

/-- `LocalCache.get_cached_search` (offline_manager.py lines 283-321).
Looks up the row for the query's hash; if one exists and
`datetime.now() - cached_at < timedelta(hours=24)` (strictly), updates the
row's access statistics and returns the stored results; otherwise returns
`None` and leaves the table unchanged (the expired row is NOT deleted).
Returns the result together with the table state after the call. -/
def get_cached_search (db : List SearchCacheRow) (now : Int) (query : String) :
    Option String × List SearchCacheRow :=
  match db.find? (fun r => r.query_text == query) with
  | none => (none, db)
  | some row =>
    if now - row.cached_at < 86400 then
      (some row.results,
       db.map (fun r =>
         if r.query_text == query then
           { r with accessed_at := now, access_count := r.access_count + 1 }
         else r))
    else (none, db)

/-! ## Indexing service
    From `tidybot/ai_service/services/indexing_service.py`. -/

/-- The filesystem facts `index_file` reads about a file: the SHA-256
content hash computed by `_calculate_file_hash` (kept as an opaque string
determined by the file's bytes), and the `stat()` fields used by the
code (`st_mtime`, `st_size`, `st_ctime`). -/
structure FileInfo where
  hash : String
  mtime : Int
  size : Nat
  ctime : Int
deriving DecidableEq, Repr

/-- The analysis payload the Content Extractor Adapter
(`FileProcessor.process_file`) returns for a file, reduced to the fields
the indexing path reads: extracted text, `keywords` and `category` from
the `analysis` sub-dict.  Fields the claims never touch (ocr text,
summary, metadata bag) are elided. -/
structure Analysis where
  text : String := ""
  keywords : List String := []
  category : String := "general"
deriving DecidableEq, Repr

/-- Outcome of `FileProcessor.process_file`: either an analysis payload or
a raised exception (the extractor is an external collaborator, so the
outcome is a parameter of the model). -/
inductive AnalysisOutcome where
  | ok (a : Analysis)
  | error (msg : String)
deriving DecidableEq, Repr

/-- One entry of `IndexingService.index_cache` (indexing_service.py lines
242-246): keyed by content hash, holding the path, the file's `st_mtime`
at indexing time, and the indexing timestamp. -/
structure CacheEntry where
  path : String
  modified_at : Int
  indexed_at : Int
deriving DecidableEq, Repr

/-- A `FileIndex` record of the File Index Store as written by
`_save_to_database` (indexing_service.py lines 380-427), reduced to the
fields the claims mention (`mime_type` and the opaque metadata bag are
elided). -/
structure FileRecord where
  file_path : String
  file_name : String
  file_size : Nat
  content_hash : String
  content : String
  tags : List String
  category : String
  created_at : Int
  modified_at : Int
  indexed_at : Int
  status : String
deriving DecidableEq, Repr

/-- The mutable state `index_file` touches: the in-memory
`index_cache` (content hash → entry, a Python dict modelled as an
association list in insertion order) and the File Index Store
(records keyed by unique `file_path`). -/
structure IndexState where
  cache : List (String × CacheEntry)
  db : List FileRecord
deriving DecidableEq, Repr

/-- Python dict assignment `self.index_cache[file_hash] = entry`: replace
the value in place if the key is present, else append. -/
def cache_insert (k : String) (v : CacheEntry) :
    List (String × CacheEntry) → List (String × CacheEntry)
  | [] => [(k, v)]
  | (k0, v0) :: rest =>
    if k0 == k then (k, v) :: rest else (k0, v0) :: cache_insert k v rest

/-- Python dict lookup `self.index_cache[file_hash]` (guarded by
`file_hash in self.index_cache`). -/
def cache_lookup (c : List (String × CacheEntry)) (k : String) :
    Option CacheEntry :=
  (c.find? (fun p => p.1 == k)).map (fun p => p.2)

/-- The field updates `_save_to_database` applies to an existing record
(indexing_service.py lines 392-403): every payload field and `indexed_at`
and `status` are overwritten, but `created_at` and `modified_at` of the
stored row are left as they were. -/
def merge_record (e r : FileRecord) : FileRecord :=
  { e with file_name := r.file_name, file_size := r.file_size,
           content_hash := r.content_hash, content := r.content,
           tags := r.tags, category := r.category,
           indexed_at := r.indexed_at, status := r.status }

/-- `_save_to_database` (indexing_service.py lines 380-427): update the
record with the same `file_path` in place if one exists (the path is the
unique key), else insert a new record. -/
def db_upsert (r : FileRecord) : List FileRecord → List FileRecord
  | [] => [r]
  | e :: rest =>
    if e.file_path == r.file_path then merge_record e r :: rest
    else e :: db_upsert r rest

/-- Split a character list on a separator character (the pieces do not
contain the separator; n separators yield n+1 pieces). -/
def split_on_char (sep : Char) : List Char → List (List Char)
  | [] => [[]]
  | c :: rest =>
    match split_on_char sep rest with
    | [] => [[]]
    | t :: ts => if c == sep then [] :: t :: ts else (c :: t) :: ts

/-- The last component of a path (Python `Path(p).name`). -/
def path_name (p : String) : String :=
  String.mk ((split_on_char '/' p.toList).getLastD p.toList)

/-- `Path(p).stem`: the name without its final extension, for ordinary
`base.ext`-shaped names (the dotfile special case of `pathlib` does not
arise in the claims). -/
def path_stem (p : String) : String :=
  match split_on_char '.' (path_name p).toList with
  | [] => path_name p
  | [single] => String.mk single
  | parts => String.mk (List.intercalate ['.'] parts.dropLast)

/-- `_extract_content` (indexing_service.py lines 338-362), restricted to
the analysis fields kept in `Analysis`: the extracted text followed by the
filename stem, space-joined (the ocr/summary/metadata parts, elided from
`Analysis`, would be interleaved the same way). -/
def extract_content (p : String) (a : Analysis) : String :=
  String.intercalate " " [a.text, path_stem p]

/-- Result dict of `index_file`: `status` is `indexed`, `skipped` (with the
`reason` value) or `failed` (with the stringified exception). -/
inductive IndexResult where
  | indexed
  | skipped (reason : String)
  | failed (error : String)
deriving DecidableEq, Repr

/-- `IndexingService.index_file` (indexing_service.py lines 198-259).
Everything runs inside a `try` whose `except` returns
`{'status': 'failed', 'error': str(e)}` — so the function never raises.
Control flow, in source order:
  1. if the path does not exist, return `skipped / File does not exist`
     without touching any state;
  2. compute the content hash; if it is a key of `index_cache` and the
     cached `modified_at` is `>=` the file's current `st_mtime`, return
     `skipped / Already indexed` without touching any state;
  3. run the extractor (`process_file`); a raised exception is caught and
     returned as `failed` (no state was written yet);
  4. build the `IndexedFile`, upsert it into the File Index Store, update
     `index_cache[hash]`, and return `indexed`.
`analyze` is the extractor parameter, `now` the `datetime.now()` value,
`fs` the filesystem. -/
def index_file (analyze : String → AnalysisOutcome) (now : Int)
    (fs : String → Option FileInfo) (st : IndexState) (path : String) :
    IndexResult × IndexState :=
  match fs path with
  | none => (.skipped "File does not exist", st)
  | some f =>
    let file_hash := f.hash
    let proceed : IndexResult × IndexState :=
      match analyze path with
      | .error e => (.failed e, st)
      | .ok a =>
        let record : FileRecord :=
          { file_path := path, file_name := path_name path,
            file_size := f.size, content_hash := file_hash,
            content := extract_content path a, tags := a.keywords,
            category := a.category, created_at := f.ctime,
            modified_at := f.mtime, indexed_at := now, status := "indexed" }
        (.indexed,
         { cache := cache_insert file_hash
             { path := path, modified_at := f.mtime, indexed_at := now }
             st.cache,
           db := db_upsert record st.db })
    match cache_lookup st.cache file_hash with
    | some cached =>
      if cached.modified_at ≥ f.mtime then (.skipped "Already indexed", st)
      else proceed
    | none => proceed

/-- The aggregate counts `index_directory` returns
(indexing_service.py lines 189-196). -/
structure DirReport where
  directory : String
  total_files : Nat
  indexed : Nat
  failed : Nat
  skipped : Nat
deriving DecidableEq, Repr

/-- `IndexingService.index_directory` (indexing_service.py lines 141-196),
applied to the already-enumerated, extension-filtered file list
`files_to_index`.  The source gathers `index_file` coroutines in batches of
10 with `return_exceptions=True` and then classifies each result:
`isinstance(result, Exception)` increments `failed`; otherwise
`result.get('status') == 'indexed'` increments `indexed` and every other
result increments `skipped`.  Because `index_file` catches every exception
and returns a `failed` dict instead of raising, `asyncio.gather` can never
deliver an `Exception` instance here, so the `failed` branch of the
classification is unreachable: the model counts `indexed` results under
`indexed` and everything else — including `failed` results — under
`skipped`, exactly as the classification does on the values `index_file`
actually produces.  Batching only affects interleaving, not the counts or
the final state, so the model folds over the files in order. -/
def index_directory (analyze : String → AnalysisOutcome) (now : Int)
    (fs : String → Option FileInfo) (st : IndexState)
    (directory : String) (files : List String) : DirReport × IndexState :=
  files.foldl
    (fun acc p =>
      let step := index_file analyze now fs acc.2 p
      (match step.1 with
       | .indexed => { acc.1 with indexed := acc.1.indexed + 1 }
       | _ => { acc.1 with skipped := acc.1.skipped + 1 },
       step.2))
    ({ directory := directory, total_files := files.length,
       indexed := 0, failed := 0, skipped := 0 }, st)

/-! ## Search engine
    From `tidybot/ai_service/services/search_engine.py`. -/

/-- The runtime value of `query.search_type` as seen by
`SearchEngine.search`: either one of the five `SearchType` enum members
(search_engine.py lines 26-31), or any other value (e.g. a raw string),
which compares unequal to every enum member. -/
inductive SearchTypeValue where
  | exact
  | fuzzy
  | semantic
  | natural_language
  | regex
  | unrecognized (raw : String)
deriving DecidableEq, Repr

/-- The six handler methods `SearchEngine.search` can route a query to
(search_engine.py lines 260-271): one per recognized `SearchType` variant,
plus `_basic_search` for the final `else` branch. -/
inductive Strategy where
  | natural_language
  | semantic
  | exact
  | fuzzy
  | regex
  | basic
deriving DecidableEq, Repr

/-- The strategy-routing chain of `SearchEngine.search` (search_engine.py
lines 260-271): successive equality tests of `query.search_type` against
`NATURAL_LANGUAGE`, `SEMANTIC`, `EXACT`, `FUZZY`, `REGEX`, with a final
`else` that calls `_basic_search`.  A value that is not one of the five
enum members fails every equality test and reaches the `else`. -/
def search_dispatch : SearchTypeValue → Strategy
  | .natural_language => .natural_language
  | .semantic => .semantic
  | .exact => .exact
  | .fuzzy => .fuzzy
  | .regex => .regex
  | .unrecognized _ => .basic

/-- `SearchQuery` dataclass (search_engine.py lines 34-48), reduced to the
fields the modelled strategies read; the optional filter fields
(`filters`, `date_range`, `file_types`, `categories`, `min_size`,
`max_size`, `sort_by`) are elided. -/
structure SearchQuery where
  query_text : String
  search_type : SearchTypeValue := .natural_language
  limit : Nat := 50
  offset : Nat := 0
  include_content : Bool := false
deriving DecidableEq, Repr

/-- `SearchResult` dataclass (search_engine.py lines 50-61), reduced to the
fields `_regex_search` fills that the claims mention (`metadata` and
`content_preview` elided).  The source's float `score` is
`len(matches)` for the regex strategy, an integer, so `Nat` is exact. -/
structure SearchResult where
  file_path : String
  file_name : String
  score : Nat
  highlights : List String
  category : String
  tags : List String
  file_size : Nat
  modified_at : Int
deriving DecidableEq, Repr

/-- Python regex `\w` on ASCII text, and the word characters of
`str.split` complement classes. -/
def is_word_char (c : Char) : Bool :=
  c.isAlphanum || c == '_'

/-- Python regex `\s` (and `str.split()` whitespace) on ASCII text. -/
def is_space_char (c : Char) : Bool :=
  c == ' ' || c == '\t' || c == '\n' || c == '\r' || c == '\x0b' || c == '\x0c'

/-- Whether `pat` occurs as a contiguous run inside `text`.  Instantiated at
`Char` it models `re.search` for a pattern that is a literal string (no
regex metacharacters); instantiated at `String` tokens it models a Whoosh
phrase query (exact token adjacency). -/
def contains_seq {α : Type} [BEq α] : List α → List α → Bool
  | pat, [] => pat.isEmpty
  | pat, c :: rest => pat.isPrefixOf (c :: rest) || contains_seq pat rest

/-- Non-overlapping, left-to-right occurrence counting for a non-empty
literal pattern, with a structural fuel argument: each recursive call
consumes at least one character of the text, so `fuel = text.length`
never runs out. -/
def lit_count_fuel : Nat → List Char → List Char → Nat
  | 0, _, _ => 0
  | _ + 1, _, [] => 0
  | fuel + 1, pat, c :: rest =>
    if !pat.isEmpty && pat.isPrefixOf (c :: rest) then
      1 + lit_count_fuel fuel pat ((c :: rest).drop pat.length)
    else
      lit_count_fuel fuel pat rest

/-- Number of non-overlapping, left-to-right occurrences of the non-empty
literal pattern `pat` in the text: models `len(re.findall(pat, text))` for
a literal pattern. -/
def lit_count (pat text : List Char) : Nat :=
  lit_count_fuel text.length pat text

/-- One step of the per-record loop of `_regex_search` (search_engine.py
lines 485-504): the scanned text is `f"{file.file_name} {file.content}"`;
a record is kept iff `pattern.search` finds a match; its score is
`len(pattern.findall(...)[:3])` and those up-to-3 matched strings are the
highlights (for a literal pattern every match is the pattern itself).
`category` models the source's `file.category or 'general'` with the empty
string as the falsy case. -/
def regex_match_row (pat_text : String) (f : FileRecord) : Option SearchResult :=
  let text := (f.file_name ++ " " ++ f.content).toList
  let pat := pat_text.toList
  if contains_seq pat text then
    let cnt := min (lit_count pat text) 3
    some { file_path := f.file_path, file_name := f.file_name, score := cnt,
           highlights := List.replicate cnt pat_text,
           category := if f.category == "" then "general" else f.category,
           tags := f.tags, file_size := f.file_size,
           modified_at := f.modified_at }
  else none

/-- The unsorted match list `_regex_search` accumulates over the scanned
records (search_engine.py lines 484-504). -/
def regex_matches (files : List FileRecord) (q : SearchQuery) :
    List SearchResult :=
  files.filterMap (regex_match_row q.query_text)

/-- Stable descending insertion by `score`: an element is placed after all
existing elements whose score is `≥` its own, so equal scores keep their
original relative order — the behaviour of Python's stable
`list.sort(key=lambda x: x.score, reverse=True)`. -/
def insert_desc (x : SearchResult) : List SearchResult → List SearchResult
  | [] => [x]
  | y :: ys =>
    if y.score ≥ x.score then y :: insert_desc x ys else x :: y :: ys

/-- `search_results.sort(key=lambda x: x.score, reverse=True)`
(search_engine.py line 506). -/
def sort_desc (l : List SearchResult) : List SearchResult :=
  l.foldl (fun acc x => insert_desc x acc) []

/-- `SearchEngine._regex_search` (search_engine.py lines 467-511) for a
pattern that is a literal string: scan all records (the model takes the
scanned record list directly; the source caps the SELECT at 1000 rows),
keep the matching ones, sort descending by score, and truncate with
`search_results[:query.limit]`.  The `re.error` path (malformed pattern →
`[]`) and the no-session path are outside this model. -/
def regex_search (files : List FileRecord) (q : SearchQuery) :
    List SearchResult :=
  (sort_desc (regex_matches files q)).take q.limit

/-- A document of the Whoosh full-text index (schema at search_engine.py
lines 220-229) with its three TEXT/KEYWORD query fields represented by
their analyzed token lists (lowercased terms, as the standard analyzer
produces). -/
structure WhooshDoc where
  path : String
  name : List String
  content : List String
  tags : List String
deriving DecidableEq, Repr

/-- Whitespace tokenization: split on runs of whitespace, dropping empty
pieces, accumulating the current token in reverse. -/
def split_ws (cur : List Char) : List Char → List (List Char)
  | [] => if cur.isEmpty then [] else [cur.reverse]
  | c :: rest =>
    if is_space_char c then
      if cur.isEmpty then split_ws [] rest
      else cur.reverse :: split_ws [] rest
    else split_ws (c :: cur) rest

/-- `query_text.split()`: Python whitespace-split with empty tokens
dropped. -/
def query_terms (s : String) : List String :=
  (split_ws [] s.toList).map String.mk

/-- `SearchEngine._exact_search` (search_engine.py lines 406-434): it
builds `Phrase("content", query.query_text.split())` — a phrase query on
the `content` field ONLY — and runs it with `limit=query.limit`.  A phrase
query matches a document iff the token sequence occurs contiguously in
that field.  Relevance scoring is abstracted: the model returns the
matching documents in index order, truncated to the limit; the theorems
proved about it only concern membership. -/
def exact_search (docs : List WhooshDoc) (q : SearchQuery) :
    List WhooshDoc :=
  (docs.filter (fun d => contains_seq (query_terms q.query_text) d.content)).take
    q.limit

/-- Levenshtein recursion with a structural fuel argument: every recursive
call shortens the combined input by at least one character, so
`fuel = xs.length + ys.length` never runs out (the fuel-0 fallback is
unreachable at that fuel). -/
def lev_fuel : Nat → List Char → List Char → Nat
  | _, [], ys => ys.length
  | _, x :: xs, [] => (x :: xs).length
  | 0, _ :: _, _ :: _ => 0
  | fuel + 1, x :: xs, y :: ys =>
    if x == y then lev_fuel fuel xs ys
    else 1 + min (lev_fuel fuel xs ys)
      (min (lev_fuel fuel (x :: xs) ys) (lev_fuel fuel xs (y :: ys)))

/-- Levenshtein edit distance between two character lists, used to model
Whoosh fuzzy-term matching (`term~2` = at most 2 edits). -/
def lev (xs ys : List Char) : Nat :=
  lev_fuel (xs.length + ys.length) xs ys

/-- A fuzzy term matches a field iff some token of the field is within
edit distance 2 of the term. -/
def fuzzy_term_match (t : String) (field : List String) : Bool :=
  field.any (fun w => decide (lev t.toList w.toList ≤ 2))

/-- The query `QueryParser("content", schema).parse(f"{query_text}~2")`
built by `_fuzzy_search`: parsed against the `content` field ONLY; the
trailing `~2` attaches to the last term (fuzzy, max 2 edits) while any
preceding terms are plain terms, conjoined by the parser's default AND
group.  An empty query text yields a query matching nothing. -/
def fuzzy_query_match (ts : List String) (field : List String) : Bool :=
  match ts.getLast? with
  | none => false
  | some t => ts.dropLast.all (fun u => field.contains u) &&
      fuzzy_term_match t field

/-- `SearchEngine._fuzzy_search` (search_engine.py lines 436-465): run the
fuzzy query on the `content` field with `limit=query.limit`.  Scoring is
abstracted exactly as in `exact_search`. -/
def fuzzy_search (docs : List WhooshDoc) (q : SearchQuery) :
    List WhooshDoc :=
  (docs.filter (fun d => fuzzy_query_match (query_terms q.query_text) d.content)).take
    q.limit

/-- A term matches a document under
`MultifieldParser(["name", "content", "tags"], schema)`: it may occur in
ANY of the three fields (per-term OR over fields). -/
def multifield_term_match (t : String) (d : WhooshDoc) : Bool :=
  d.name.contains t || d.content.contains t || d.tags.contains t

/-- `SearchEngine._basic_search` (search_engine.py lines 513-544): parse
`query_text` with the multifield parser (terms conjoined by the default
AND group, each term ORed over `name`/`content`/`tags`) and run it with
`limit=query.limit`.  Scoring abstracted as in `exact_search`. -/
def basic_search (docs : List WhooshDoc) (q : SearchQuery) :
    List WhooshDoc :=
  (docs.filter (fun d =>
    (query_terms q.query_text).all (fun t => multifield_term_match t d))).take
    q.limit

/-! ## Natural-language query parser
    `NaturalLanguageParser` (search_engine.py lines 64-211).  The claims
    concern `_extract_file_types` and `_extract_size_constraints`, which
    are pure regex/substring code modelled here character by character;
    the spaCy keyword extraction is an external collaborator and is not
    part of any claim. -/

/-- `self.size_units.get(unit, 1024 * 1024)` (search_engine.py lines
81-85 and 186). -/
def size_units_get (u : String) : Nat :=
  if u == "kb" then 1024
  else if u == "mb" then 1048576
  else if u == "gb" then 1073741824
  else 1048576

/-- Consume a literal from the head of the text. -/
def drop_lit (lit cs : List Char) : Option (List Char) :=
  if lit.isPrefixOf cs then some (cs.drop lit.length) else none

/-- Greedily consume whitespace, returning how many characters went. -/
def take_spaces : List Char → Nat × List Char
  | [] => (0, [])
  | c :: rest =>
    if is_space_char c then
      let r := take_spaces rest
      (r.1 + 1, r.2)
    else (0, c :: rest)

/-- Accumulate the decimal value of a maximal digit run. -/
def take_digits_go (acc : Nat) : List Char → Nat × List Char
  | [] => (acc, [])
  | c :: rest =>
    if c.isDigit then take_digits_go (acc * 10 + (c.toNat - 48)) rest
    else (acc, c :: rest)

/-- Greedily consume `\d+` (at least one digit), returning its value. -/
def take_digits : List Char → Option (Nat × List Char)
  | [] => none
  | c :: rest =>
    if c.isDigit then some (take_digits_go (c.toNat - 48) rest)
    else none

/-- The optional group `(kb|mb|gb)?`: try each alternative as a plain
prefix (the pattern has no boundary assertion after the unit). -/
def take_unit (cs : List Char) : Option String × List Char :=
  match drop_lit "kb".toList cs with
  | some r => (some "kb", r)
  | none =>
    match drop_lit "mb".toList cs with
    | some r => (some "mb", r)
    | none =>
      match drop_lit "gb".toList cs with
      | some r => (some "gb", r)
      | none => (none, cs)

/-- A successful match of the size pattern: the comparison word, the
number, and the optional unit. -/
structure SizeMatch where
  comparison : String
  n : Nat
  unit : Option String
deriving DecidableEq, Repr

/-- Match `word\s+than\s+(\d+)\s*(kb|mb|gb)?` at the head of the text (one
alternative of the comparison-word alternation).  `\s+` is greedy;
since `than` and the digits cannot start with whitespace, greedy
consumption without backtracking is exact here. -/
def size_match_with (word : List Char) (wstr : String) (cs : List Char) :
    Option SizeMatch :=
  (drop_lit word cs).bind fun r1 =>
  match take_spaces r1 with
  | (0, _) => none
  | (_ + 1, r2) =>
    (drop_lit "than".toList r2).bind fun r3 =>
    match take_spaces r3 with
    | (0, _) => none
    | (_ + 1, r4) =>
      (take_digits r4).bind fun nr =>
      let r6 := (take_spaces nr.2).2
      some { comparison := wstr, n := nr.1, unit := (take_unit r6).1 }

/-- Try the four comparison-word alternatives, in the pattern's
alternation order, at the current position. -/
def size_match_at (cs : List Char) : Option SizeMatch :=
  match size_match_with "larger".toList "larger" cs with
  | some m => some m
  | none =>
    match size_match_with "bigger".toList "bigger" cs with
    | some m => some m
    | none =>
      match size_match_with "smaller".toList "smaller" cs with
      | some m => some m
      | none => size_match_with "less".toList "less" cs

/-- `re.search(r'(larger|bigger|smaller|less)\s+than\s+(\d+)\s*(kb|mb|gb)?',
query)`: the leftmost position at which some alternative matches wins
(search_engine.py lines 178-179).  The pattern deliberately has no word
boundaries, exactly as in the source. -/
def find_size_match : List Char → Option SizeMatch
  | [] => none
  | c :: rest =>
    match size_match_at (c :: rest) with
    | some m => some m
    | none => find_size_match rest

/-- Python `str.lower()` on ASCII text. -/
def to_lower_chars (s : String) : List Char :=
  s.toList.map Char.toLower

/-- The `constraints` dict `_extract_size_constraints` returns: at most one
of `min_size` / `max_size` is set. -/
structure SizeConstraints where
  min_size : Option Nat := none
  max_size : Option Nat := none
deriving DecidableEq, Repr

/-- `NaturalLanguageParser._extract_size_constraints` (search_engine.py
lines 173-193): search the size pattern in `query.lower()`; on a match,
`unit = match.group(3) or 'mb'` (so a missing unit defaults to MB),
`size_bytes = size * size_units.get(unit, MB)`, and the comparison word
selects `min_size` (`larger`/`bigger`) or `max_size` (`smaller`/`less`). -/
def extract_size_constraints (query : String) : SizeConstraints :=
  match find_size_match (to_lower_chars query) with
  | none => {}
  | some m =>
    let size_bytes := m.n * size_units_get (m.unit.getD "mb")
    if m.comparison == "larger" || m.comparison == "bigger" then
      { min_size := some size_bytes }
    else
      { max_size := some size_bytes }

/-- `self.file_type_mappings` (search_engine.py lines 87-94), in source
order. -/
def file_type_mappings : List (String × List String) :=
  [("images", [".jpg", ".jpeg", ".png", ".gif", ".bmp"]),
   ("documents", [".pdf", ".doc", ".docx", ".txt"]),
   ("spreadsheets", [".xls", ".xlsx", ".csv"]),
   ("presentations", [".ppt", ".pptx"]),
   ("videos", [".mp4", ".avi", ".mov", ".mkv"]),
   ("code", [".py", ".js", ".java", ".cpp", ".html"])]

/-- The extension alternation of the pattern
`\b\w+\.(pdf|doc|docx|txt|jpg|png|mp4|zip)\b` (search_engine.py line 166),
in alternation order. -/
def ext_candidates : List String :=
  ["pdf", "doc", "docx", "txt", "jpg", "png", "mp4", "zip"]

/-- The trailing `\b` of the extension pattern: the next character, if
any, is not a word character. -/
def word_boundary_after : List Char → Bool
  | [] => true
  | c :: _ => !is_word_char c

/-- Length of the maximal `\w+` run at the head of the text. -/
def word_run : List Char → Nat
  | [] => 0
  | c :: rest => if is_word_char c then 1 + word_run rest else 0

/-- Try the extension alternatives in order right after the dot; an
alternative only succeeds when followed by a word boundary, which is how
the regex engine settles `doc` vs `docx`. -/
def ext_at : List String → List Char → Option (String × List Char)
  | [], _ => none
  | e :: es, cs =>
    let el := e.toList
    if el.isPrefixOf cs && word_boundary_after (cs.drop el.length) then
      some (e, cs.drop el.length)
    else ext_at es cs

/-- `re.findall(r'\b\w+\.(pdf|doc|docx|txt|jpg|png|mp4|zip)\b', query)`:
scan left to right; a match can only start at a word boundary followed by
a word run, a dot, and a recognized extension; matches are non-overlapping
and the scan resumes after each match.  `prev_word` records whether the
previous character was a word character (the `\b` state).  The `fuel`
argument is only a structural-termination device: every recursive call
consumes at least one character, so `fuel = text.length` never runs out. -/
def ext_scan_fuel : Nat → List Char → Bool → List String
  | 0, _, _ => []
  | _ + 1, [], _ => []
  | fuel + 1, c :: rest, prev_word =>
    if is_word_char c && !prev_word then
      let k := word_run (c :: rest)
      match (c :: rest).drop k with
      | '.' :: tail =>
        match ext_at ext_candidates tail with
        | some er => er.1 :: ext_scan_fuel fuel er.2 true
        | none => ext_scan_fuel fuel rest (is_word_char c)
      | _ => ext_scan_fuel fuel rest (is_word_char c)
    else ext_scan_fuel fuel rest (is_word_char c)

/-- The extension-mention matches of the query (see `ext_scan_fuel`). -/
def ext_scan (cs : List Char) : List String :=
  ext_scan_fuel cs.length cs false

/-- `NaturalLanguageParser._extract_file_types` (search_engine.py lines
157-171): every mapping whose category word occurs in the (raw, not
lowercased) query contributes its extension list, then each direct
`word.ext` mention contributes `'.ext'`; finally the source deduplicates
with `list(set(file_types))`, whose iteration order Python leaves
unspecified — the model keeps first-occurrence order, and the claims about
this function only use membership. -/
def extract_file_types (query : String) : List String :=
  let mapped := file_type_mappings.foldl
    (fun acc m =>
      if contains_seq m.1.toList query.toList then acc ++ m.2 else acc) []
  let mentioned := (ext_scan query.toList).map (fun e => "." ++ e)
  (mapped ++ mentioned).eraseDups

/-! ## Concrete instances used by the theorems below -/

/-- A freshly queued offline operation (as `queue_operation` creates them:
`status = PENDING`, `retry_count = 0`). -/
def c1_op : OfflineOperation :=
  { id := "op-a", operation_type := .create, file_path := "a.txt",
    timestamp := 0, data := "", status := .pending }

/-- The operation queued in the sync-then-reload scenario. -/
def c5_op : OfflineOperation :=
  { id := "op-b", operation_type := .update, file_path := "b.txt",
    timestamp := 5, data := "", status := .pending }

/-- A search-cache row cached at time 0. -/
def c9_row : SearchCacheRow :=
  { query_text := "q", results := "r", cached_at := 0, accessed_at := 0,
    access_count := 0 }

/-- A two-file directory: both files exist on disk. -/
def c2_fs : String → Option FileInfo := fun p =>
  if p == "d/good.txt" then some { hash := "h1", mtime := 100, size := 10, ctime := 50 }
  else if p == "d/bad.txt" then some { hash := "h2", mtime := 100, size := 20, ctime := 50 }
  else none

/-- An extractor that raises on `d/bad.txt` and succeeds elsewhere. -/
def c2_analyze : String → AnalysisOutcome := fun p =>
  if p == "d/bad.txt" then .error "boom"
  else .ok { text := "hello", keywords := ["k"], category := "doc" }

/-- Two indexed records: the pattern "a" occurs once in the scanned text of
`/x` (`"xa b"`) and three times in that of `/y` (`"ya a a"`). -/
def c4_files : List FileRecord :=
  [{ file_path := "/x", file_name := "xa", file_size := 1, content_hash := "h",
     content := "b", tags := [], category := "c", created_at := 0,
     modified_at := 0, indexed_at := 0, status := "indexed" },
   { file_path := "/y", file_name := "ya", file_size := 1, content_hash := "h",
     content := "a a", tags := [], category := "c", created_at := 0,
     modified_at := 0, indexed_at := 0, status := "indexed" }]

/-- A regex query asking for the second page of one-result pages. -/
def c4_query : SearchQuery :=
  { query_text := "a", search_type := .regex, limit := 1, offset := 1 }

/-- A document whose name contains the query phrase but whose content does
not. -/
def c7_doc : WhooshDoc :=
  { path := "/p", name := ["report"], content := ["hello"], tags := [] }

/-- The query phrase `report`. -/
def c7_query : SearchQuery := { query_text := "report", search_type := .exact }

/-- A document whose content does contain the query phrase. -/
def c7_hit_doc : WhooshDoc :=
  { path := "/h", name := [], content := ["report"], tags := [] }

/-- A one-file filesystem view: every path resolves to the same unchanged
file (hash `h`, mtime 0). -/
def c6_fs : String → Option FileInfo := fun _ =>
  some { hash := "h", mtime := 0, size := 0, ctime := 0 }

/-- An extractor that always succeeds with the default payload. -/
def c6_analyze : String → AnalysisOutcome := fun _ => .ok {}

/-! ## Helper lemmas -/

/-- Looking up a key right after storing it in the index cache yields the
stored entry. -/
theorem cache_lookup_cache_insert (k : String) (v : CacheEntry) :
    ∀ c : List (String × CacheEntry),
      cache_lookup (cache_insert k v c) k = some v := by
  intro c
  induction c with
  | nil => simp [cache_insert, cache_lookup, List.find?]
  | cons p rest ih =>
    obtain ⟨k0, v0⟩ := p
    by_cases h : k0 == k
    · simp [cache_insert, cache_lookup, List.find?, h]
    · simpa [cache_insert, cache_lookup, List.find?, h] using ih

/-! ## Claims -/

/-- C1, counterexample.  An always-failing operation is dropped from the
queue by `sync_now` after its third attempt, but its `status` field is
still `pending`: the loop never assigns `SyncStatus.FAILED`, so the claim
that the operation "is left in the `failed` status" is false. -/
theorem c1_failed_status_counterexample :
    (sync_now always_fails [c1_op]).dropped_ops = [{ c1_op with retry_count := 3 }] ∧
    ({ c1_op with retry_count := 3 } : OfflineOperation).status = SyncStatus.pending ∧
    SyncStatus.pending ≠ SyncStatus.failed := by
  refine ⟨?_, rfl, by decide⟩
  simp [sync_now, always_fails, c1_op]

/-- C1, amended.  A queued operation (retry_count 0) whose sync attempt
always fails with a non-conflict error is attempted exactly 3 times by
`sync_now` (each attempt counted in `failed`), after which it is dropped
from the in-memory queue — so it is not retried again during the session —
with its `status` field unchanged (still `pending`, never set to
`failed`). -/
theorem c1_retry_exhaustion_amended (op : OfflineOperation)
    (h : op.retry_count = 0) :
    sync_now always_fails [op] =
      { synced := 0, failed := 3, conflicts := 0, synced_ops := [],
        conflict_ops := [], dropped_ops := [{ op with retry_count := 3 }] } ∧
    ({ op with retry_count := 3 } : OfflineOperation).status = op.status := by
  obtain ⟨i, ot, fp, ts, d, s, e, rc⟩ := op
  simp only [OfflineOperation.retry_count] at h
  subst h
  refine ⟨?_, rfl⟩
  simp [sync_now, always_fails]

/-- C1, witness for the amended theorem at a concrete operation. -/
theorem c1_retry_exhaustion_witness :
    sync_now always_fails [c1_op] =
      { synced := 0, failed := 3, conflicts := 0, synced_ops := [],
        conflict_ops := [], dropped_ops := [{ c1_op with retry_count := 3 }] } ∧
    ({ c1_op with retry_count := 3 } : OfflineOperation).status = c1_op.status :=
  c1_retry_exhaustion_amended c1_op rfl

/-- C2.  An extraction error on one file does not abort the directory walk
and the call returns normally with `total = indexed + failed + skipped` —
but the failing file is counted under `skipped`, not `failed`:
`index_file` returns a `failed` result dict on that file (first conjunct),
while `index_directory` classifies every non-`indexed` dict result as
`skipped`, its `failed` counter only reacting to `Exception` instances
that `index_file`, catching everything, can never deliver. -/
theorem c2_failed_file_counted_as_skipped :
    (index_file c2_analyze 200 c2_fs { cache := [], db := [] } "d/bad.txt").1
      = .failed "boom" ∧
    (index_directory c2_analyze 200 c2_fs { cache := [], db := [] } "d"
        ["d/bad.txt", "d/good.txt"]).1
      = { directory := "d", total_files := 2, indexed := 1, failed := 0,
          skipped := 1 } := by
  constructor <;> decide

/-- C3, counterexample.  A `search_type` value that is not one of the five
`SearchType` members is routed by `SearchEngine.search` to
`_basic_search`, not to the natural-language handler. -/
theorem c3_unrecognized_routing_counterexample :
    search_dispatch (.unrecognized "keyword") ≠ search_dispatch .natural_language ∧
    search_dispatch (.unrecognized "keyword") = .basic := by
  decide

/-- C3, amended.  For every unrecognized `search_type` value,
`SearchEngine.search` falls through every equality test and routes the
query to the basic multifield keyword search (`_basic_search`) — a
different code path from the natural-language strategy (no NL parsing, no
derived filters, no semantic re-ranking).  (The HTTP layer separately maps
unrecognized type strings to `NATURAL_LANGUAGE` before the engine is
called; the engine itself does not.) -/
theorem c3_unrecognized_routes_to_basic (s : String) :
    search_dispatch (.unrecognized s) = .basic :=
  rfl

/-- C4, counterexample.  With `offset = 1` and `limit = 1`, the regex
strategy returns the FIRST entry of its sorted result set, not the slice
`[offset, offset+limit)`: the `offset` field is never read. -/
theorem c4_offset_slice_counterexample :
    regex_search c4_files c4_query ≠
      ((sort_desc (regex_matches c4_files c4_query)).drop c4_query.offset).take
        c4_query.limit := by
  decide

/-- C4, amended.  The regex strategy ignores `offset` entirely — its
results are identical for every offset value — and returns the first
`limit` entries of its sorted result set (so never more than `limit`
entries, which is the half of the claim that does hold). -/
theorem c4_offset_ignored_amended (files : List FileRecord) (q : SearchQuery)
    (k : Nat) :
    regex_search files { q with offset := k } = regex_search files q ∧
    (regex_search files q).length ≤ q.limit := by
  constructor
  · cases q
    rfl
  · simp [regex_search]

/-- C7, counterexample.  A document whose `name` field contains the query
phrase but whose `content` does not is returned by neither the EXACT nor
the FUZZY strategy: both build their query against the `content` field
only, so the claimed OR-style multi-field matching over
name/content/tags does not apply to them. -/
theorem c7_multifield_counterexample :
    contains_seq (query_terms c7_query.query_text) c7_doc.name = true ∧
    c7_doc ∉ exact_search [c7_doc] c7_query ∧
    c7_doc ∉ fuzzy_search [c7_doc] c7_query := by
  decide

/-- C7, amended.  EXACT and FUZZY searches match against the `content`
field only: every document they return has the query phrase (resp. the
fuzzy term query) matching its `content` tokens.  The OR-style
multi-field matching over `name`/`content`/`tags` belongs to the
natural-language and basic keyword strategies, which use the multifield
parser. -/
theorem c7_exact_fuzzy_content_only :
    (∀ (docs : List WhooshDoc) (q : SearchQuery) (d : WhooshDoc),
        d ∈ exact_search docs q →
          contains_seq (query_terms q.query_text) d.content = true) ∧
    (∀ (docs : List WhooshDoc) (q : SearchQuery) (d : WhooshDoc),
        d ∈ fuzzy_search docs q →
          fuzzy_query_match (query_terms q.query_text) d.content = true) := by
  constructor
  · intro docs q d hd
    unfold exact_search at hd
    exact (List.mem_filter.mp (List.mem_of_mem_take hd)).2
  · intro docs q d hd
    unfold fuzzy_search at hd
    exact (List.mem_filter.mp (List.mem_of_mem_take hd)).2

/-- C7, witness for the amended theorem at a concrete matching document. -/
theorem c7_exact_fuzzy_content_only_witness :
    contains_seq (query_terms c7_query.query_text) c7_hit_doc.content = true ∧
    fuzzy_query_match (query_terms c7_query.query_text) c7_hit_doc.content = true :=
  ⟨c7_exact_fuzzy_content_only.1 [c7_hit_doc] c7_query c7_hit_doc (by decide),
   c7_exact_fuzzy_content_only.2 [c7_hit_doc] c7_query c7_hit_doc (by decide)⟩

/-- C5.  One operation is queued (persisted with status `pending`) and its
sync attempt succeeds: `sync_now` reports it synced and removes it from
the in-memory queue.  But the sync path never touches the persisted row —
it still says `pending` — so `_load_pending_operations` (the restart
path), although it does filter to `pending`/`failed` rows, re-adds the
already-synced operation to the queue, contradicting the claim. -/
theorem c5_synced_operation_reloaded :
    (queue_operation [] [] .update "b.txt" "" "op-b" 5).2 = [c5_op] ∧
    (sync_now always_succeeds [c5_op]).synced = 1 ∧
    (sync_now always_succeeds [c5_op]).synced_ops = [c5_op] ∧
    load_pending_operations (queue_operation [] [] .update "b.txt" "" "op-b" 5).1
      = [c5_op] := by
  refine ⟨by decide, ?_, ?_, by decide⟩ <;>
    simp [sync_now, always_succeeds]

/-- C6.  Indexing the same unchanged file twice (same content hash, on-disk
modification time not advanced) returns `indexed` on the first call and
`skipped` (reason `Already indexed`) on the second, and the second call
leaves the entire post-first-call state — File Index Store records and
index cache, hence hashes and timestamps — unchanged. -/
theorem c6_idempotent_reindex
    (analyze : String → AnalysisOutcome) (now now2 : Int)
    (fs : String → Option FileInfo) (st : IndexState) (p : String)
    (f : FileInfo) (a : Analysis)
    (hf : fs p = some f) (ha : analyze p = .ok a)
    (hc : cache_lookup st.cache f.hash = none) :
    (index_file analyze now fs st p).1 = .indexed ∧
    index_file analyze now2 fs (index_file analyze now fs st p).2 p
      = (.skipped "Already indexed", (index_file analyze now fs st p).2) := by
  constructor
  · simp [index_file, hf, ha, hc]
  · simp [index_file, hf, ha, hc, cache_lookup_cache_insert]

/-- C6, witness at a concrete file and extractor. -/
theorem c6_idempotent_reindex_witness :
    (index_file c6_analyze 1 c6_fs { cache := [], db := [] } "f.txt").1
      = .indexed ∧
    index_file c6_analyze 2 c6_fs
        (index_file c6_analyze 1 c6_fs { cache := [], db := [] } "f.txt").2 "f.txt"
      = (.skipped "Already indexed",
         (index_file c6_analyze 1 c6_fs { cache := [], db := [] } "f.txt").2) :=
  c6_idempotent_reindex c6_analyze 1 2 c6_fs { cache := [], db := [] } "f.txt"
    { hash := "h", mtime := 0, size := 0, ctime := 0 } {} rfl rfl rfl

/-- C9.  When a cached row for the query exists, `get_cached_search`
returns its stored results exactly when it was cached strictly less than
24 hours ago; a row cached 24 hours ago or earlier is a miss (`None`)
and the call leaves the table — including that row — untouched. -/
theorem c9_search_cache_expiry (db : List SearchCacheRow) (now : Int)
    (q : String) (row : SearchCacheRow)
    (hrow : db.find? (fun r => r.query_text == q) = some row) :
    (now - row.cached_at < 86400 →
      (get_cached_search db now q).1 = some row.results) ∧
    (86400 ≤ now - row.cached_at →
      get_cached_search db now q = (none, db)) := by
  constructor
  · intro h
    simp only [get_cached_search, hrow]
    rw [if_pos h]
  · intro h
    simp only [get_cached_search, hrow]
    rw [if_neg (by omega)]

/-- C9, witness: a row cached at time 0 is a miss at exactly 86400 (24h)
with the row still present, and a hit one second earlier. -/
theorem c9_search_cache_expiry_witness :
    get_cached_search [c9_row] 86400 "q" = (none, [c9_row]) ∧
    (get_cached_search [c9_row] 86399 "q").1 = some c9_row.results :=
  ⟨(c9_search_cache_expiry [c9_row] 86400 "q" c9_row rfl).2 (by decide),
   (c9_search_cache_expiry [c9_row] 86399 "q" c9_row rfl).1 (by decide)⟩

/-- C10.  For a path that does not exist on the filesystem, `index_file`
returns `skipped` with reason `File does not exist` — not `failed` — and
writes nothing: the File Index Store and the in-memory index cache are
returned unchanged, and no exception escapes (the model is a total
function, mirroring the `try` wrapper that converts any exception into a
`failed` result, which this early return never reaches). -/
theorem c10_missing_file_skipped (analyze : String → AnalysisOutcome)
    (now : Int) (fs : String → Option FileInfo) (st : IndexState) (p : String)
    (h : fs p = none) :
    index_file analyze now fs st p = (.skipped "File does not exist", st) := by
  simp [index_file, h]

/-- C10, witness at a concrete missing path. -/
theorem c10_missing_file_skipped_witness :
    index_file c6_analyze 0 (fun _ => none) { cache := [], db := [] } "ghost.txt"
      = (.skipped "File does not exist", { cache := [], db := [] }) :=
  c10_missing_file_skipped c6_analyze 0 (fun _ => none) { cache := [], db := [] }
    "ghost.txt" rfl

/-- C8.  Parsing `"images larger than 50kb"` yields `file_types`
containing all five image extensions and `min_size = 50 * 1024` bytes;
and when no unit is given (`"larger than 7"`), the unit defaults to MB
(`min_size = 7 * 1024 * 1024`). -/
theorem c8_nl_size_and_file_types :
    (".jpg" ∈ extract_file_types "images larger than 50kb" ∧
     ".jpeg" ∈ extract_file_types "images larger than 50kb" ∧
     ".png" ∈ extract_file_types "images larger than 50kb" ∧
     ".gif" ∈ extract_file_types "images larger than 50kb" ∧
     ".bmp" ∈ extract_file_types "images larger than 50kb") ∧
    extract_size_constraints "images larger than 50kb"
      = { min_size := some (50 * 1024) } ∧
    extract_size_constraints "larger than 7"
      = { min_size := some (7 * 1024 * 1024) } := by
  decide

end TidyBot
